import Mathlib

/-!
Verification of the sol-stake-forge client staking engine.

This file shallowly embeds the point-accrual calculator, the fixed-layout
account decoder, the claim orchestration of the primary hook
(src/unnamed/part_001, useStakeProgram), and the local validation gates of
the two useStaking hook variants (src/src/hooks/useStaking.ts and
src/unnamed/part_002).  JavaScript numbers are modelled as exact integers
(Int) except where a statement is specifically about IEEE-754 double
precision, for which an exact rounding model of integer-valued doubles is
used.  Math.floor of an exact quotient is Int.fdiv (floor division).
-/

/-- Constant LAMPORTS_PER_SOL from @solana/web3.js, used as the accrual
divisor in part_001 (lines 77 and 120). -/
def LAMPORTS_PER_SOL : Int := 1000000000

/-- Constant POINTS_PER_SOL from part_001 line 25: 100000 points = 1 SOL. -/
def POINTS_PER_SOL : Int := 100000

/-- Embeds calculatePoints, part_001 lines 73-79.  The source guard is
`if (!stakedAmount || !lastUpdatedTime) return totalPoints`, i.e. it fires
exactly when either value is zero (JS falsiness on numbers); there is no
guard on the sign of the elapsed time.  `now` (Date.now()/1000 in the
source) is passed explicitly to keep the function pure. -/
def calculatePoints (stakedAmount lastUpdatedTime totalPoints now : Int) : Int :=
  if stakedAmount = 0 ∨ lastUpdatedTime = 0 then totalPoints
  else
    let timeElapsed := now - lastUpdatedTime
    let pointsEarned := Int.fdiv (stakedAmount * timeElapsed) LAMPORTS_PER_SOL
    totalPoints + pointsEarned

/-- Embeds the inline snapshot accrual of fetchStakeAccount, part_001
lines 116-122: points are earned only when `stakedAmount > 0` and
`timeElapsed > 0`, and `pointsEarned = Math.floor(stakedAmount *
timeElapsed / LAMPORTS_PER_SOL)`.  The arithmetic is idealized as exact
unbounded integers; it agrees with the source's binary64 computation
exactly when the product stays below 2^53 (the product is then an exact
double, and the quotient is never closer than 1e-9 to an integer while
the half-ulp at quotients below 2^53/1e9 is at most 2^-30 < 1e-9, so the
floor of the rounded division equals the exact floor).  The binary64
divergence above 2^53 is modelled separately via fl53/jsProduct. -/
def accrueSnapshot (stakedAmount lastUpdatedTime totalPoints now : Int) : Int :=
  let timeElapsed := now - lastUpdatedTime
  let pointsEarned :=
    if 0 < stakedAmount ∧ 0 < timeElapsed then
      Int.fdiv (stakedAmount * timeElapsed) LAMPORTS_PER_SOL
    else 0
  totalPoints + pointsEarned

/-- Little-endian unsigned integer read of a byte list, as performed by
`new BN(bytes, le)` in part_001 lines 98-109. -/
def leU64 : List Nat → Nat
  | [] => 0
  | b :: rest => b + 256 * leU64 rest

/-- Embeds BN.prototype.toNumber as used at part_001 lines 99, 104, 109:
it returns the value when it fits in 53 bits and throws an assertion
error otherwise; the throw is caught by the surrounding try/catch, so in
the embedding it is a decode failure (none). -/
def toNumber? (n : Nat) : Option Nat :=
  if n < 2 ^ 53 then some n else none

/-- The decoded StakeAccount record of part_001 lines 138-144 (fields
owner, stakedAmount, totalPoints, lastUpdatedTime, bump). -/
structure StakeAccount where
  owner : List Nat
  stakedAmount : Int
  totalPoints : Int
  lastUpdatedTime : Int
  bump : Nat
deriving DecidableEq

/-- Embeds the byte-layout decode of fetchStakeAccount, part_001 lines
89-113: require length at least 8+32+8+8+8+1 = 65, then set offset = 8
(the comment in the source reads Skip discriminator: the first 8 bytes
are never compared with anything), owner = bytes 8..40, stakedAmount =
LE u64 at 40..48, totalPoints at 48..56, lastUpdatedTime at 56..64,
bump = data[64].  A toNumber failure propagates as none (caught by the
try/catch in the source, which treats it as account-not-initialized). -/
def decodeStakeAccount (data : List Nat) : Option StakeAccount :=
  if 65 ≤ data.length then
    let body := data.drop 8
    match toNumber? (leU64 ((body.drop 32).take 8)),
          toNumber? (leU64 ((body.drop 40).take 8)),
          toNumber? (leU64 ((body.drop 48).take 8)) with
    | some sa, some tp, some lu =>
        some { owner := body.take 32, stakedAmount := (sa : Int),
               totalPoints := (tp : Int), lastUpdatedTime := (lu : Int),
               bump := (body.drop 56).headD 0 }
    | _, _, _ => none
  else none

/-- Embeds the overall result of fetchStakeAccount, part_001 lines 86-159,
as a pure function of the fetched account bytes and the clock: the pair of
the stored stake-account state and the calculatedPoints state.  A missing
account, empty data, short data, or a decode failure all end in
(none, 0); a successful decode publishes the account together with the
snapshot accrual. -/
def fetchResult (accountInfo : Option (List Nat)) (now : Int) :
    Option StakeAccount × Int :=
  match accountInfo with
  | none => (none, 0)
  | some data =>
      if data.length = 0 then (none, 0)
      else
        match decodeStakeAccount data with
        | none => (none, 0)
        | some acc =>
            (some acc,
             accrueSnapshot acc.stakedAmount acc.lastUpdatedTime acc.totalPoints now)

/-- Exponent of the unit in the last place of the IEEE-754 binary64 value
nearest to the natural number n: the least e with n < 2^(53+e), and 0
when n already fits in the 53-bit significand.  Valid for n < 2^153,
far above any product of two decoded 53-bit values. -/
def ulpExp (n : Nat) : Nat :=
  ((List.range 100).find? (fun e => n < 2 ^ (53 + e))).getD 100

/-- Rounds the natural number n to the nearest IEEE-754 binary64 value
(round to nearest, ties to even), returned as a natural number.  Numbers
below 2^53 are exact; larger ones are rounded to a multiple of the ulp. -/
def fl53 (n : Nat) : Nat :=
  let e := ulpExp n
  if e = 0 then n
  else
    let u := 2 ^ e
    let q := n / u
    let r := n % u
    let h := u / 2
    if r < h then q * u
    else if h < r then (q + 1) * u
    else if q % 2 = 0 then q * u
    else (q + 1) * u

/-- The JavaScript number product `stakedAmount * timeElapsed` computed at
part_001 lines 77 and 120: both operands are integers below 2^53 (hence
exact doubles), and IEEE-754 multiplication returns the correctly rounded
product, i.e. fl53 of the exact product. -/
def jsProduct (a b : Nat) : Nat := fl53 (a * b)

/-- Observable external effects of the claimPoints flow of part_001
lines 344-405, in execution order: blockhash fetches, submission and
confirmation of the on-chain claim instruction (step 1), and submission
and confirmation of the custodial payout transfer (step 3). -/
inductive ClaimEvent where
  | fetchBlockhash
  | submitClaim
  | confirmClaim
  | submitPayout (lamports : Int)
  | confirmPayout
deriving DecidableEq

/-- Outcome reported by the claimPoints flow of part_001: the missing-key
or missing-wallet early return, the under-50000 toast (line 334), the
zero-whole-SOL toast (line 399), or success. -/
inductive ClaimOutcome where
  | notConfigured
  | belowMinimum
  | payoutZero
  | success (solToClaim : Int)
deriving DecidableEq

/-- Embeds claimPoints, part_001 lines 318-424, on its happy network path
as the ordered list of external effects plus the reported outcome.
`configured` bundles the program/publicKey/pdaAccount/pointsAccountKeypair
presence checks of lines 319-327.  The 50000-point gate (line 334) runs
before the try block; the on-chain claim (lines 347-360) runs before
solToClaim = Math.floor(points / POINTS_PER_SOL) is computed (line 363),
and the payout transfer (lines 367-392) runs only when solToClaim > 0. -/
def claimPointsRun (configured : Bool) (calculatedPoints : Int) :
    List ClaimEvent × ClaimOutcome :=
  if ¬ configured then ([], ClaimOutcome.notConfigured)
  else
    let points := calculatedPoints
    if points < 50000 then ([], ClaimOutcome.belowMinimum)
    else
      let solToClaim := Int.fdiv points POINTS_PER_SOL
      if 0 < solToClaim then
        ([ClaimEvent.fetchBlockhash, ClaimEvent.submitClaim, ClaimEvent.confirmClaim,
          ClaimEvent.fetchBlockhash, ClaimEvent.submitPayout (solToClaim * LAMPORTS_PER_SOL),
          ClaimEvent.confirmPayout],
         ClaimOutcome.success solToClaim)
      else
        ([ClaimEvent.fetchBlockhash, ClaimEvent.submitClaim, ClaimEvent.confirmClaim],
         ClaimOutcome.payoutZero)

/-- Wallet-session state visible to the synchronous validation gates of
the two useStaking hook variants: the loading flag, wallet presence
(publicKey together with sendTransaction), the cached SOL balance, and
the cached decoded stake account. -/
structure SessionState where
  loading : Bool
  connected : Bool
  balance : ℚ
  stakeAccount : Option StakeAccount

/-- Decision taken by a hook operation before any asynchronous work: each
constructor corresponds to one early-return toast of the sources, and
`proceed` means the function enters its try block (setLoading plus
network calls). -/
inductive StakeDecision where
  | pleaseWait
  | notConnected
  | invalidAmount
  | insufficientBalance
  | noStakeAccount
  | exceedsStaked
  | noPoints
  | proceed
deriving DecidableEq

/-- Embeds the synchronous gate of stake in src/src/hooks/useStaking.ts,
lines 120-148: wallet check, amount greater than 0, amount within the
cached balance.  The source reads the loading flag nowhere in this
function. -/
def stakeGateTs (st : SessionState) (amount : ℚ) : StakeDecision :=
  if ¬ st.connected then StakeDecision.notConnected
  else if amount ≤ 0 then StakeDecision.invalidAmount
  else if st.balance < amount then StakeDecision.insufficientBalance
  else StakeDecision.proceed

/-- Embeds the synchronous gate of stake in part_002, lines 142-171:
loading check first (Please wait toast), then wallet check, then amount
greater than 0.  The fee-buffer balance check of lines 179-189 happens
inside the try block after a network call and is not part of this gate. -/
def stakeGate2 (st : SessionState) (amount : ℚ) : StakeDecision :=
  if st.loading then StakeDecision.pleaseWait
  else if ¬ st.connected then StakeDecision.notConnected
  else if amount ≤ 0 then StakeDecision.invalidAmount
  else StakeDecision.proceed

/-- Embeds the synchronous gate of unstake in src/src/hooks/useStaking.ts,
lines 228-256: wallet check, stake-account presence, amount greater
than 0.  There is no comparison of the requested amount with the staked
amount and no loading check. -/
def unstakeGateTs (st : SessionState) (amount : ℚ) : StakeDecision :=
  if ¬ st.connected then StakeDecision.notConnected
  else
    match st.stakeAccount with
    | none => StakeDecision.noStakeAccount
    | some _ =>
        if amount ≤ 0 then StakeDecision.invalidAmount
        else StakeDecision.proceed

/-- Embeds the synchronous gate of unstake in part_002, lines 270-322:
loading check, wallet check, stake-account presence, amount greater
than 0, and the local check `lamports > stakedLamports` with
`lamports = Math.floor(amount * LAMPORTS_PER_SOL)` (lines 308-320),
all before setLoading and before any network call. -/
def unstakeGate2 (st : SessionState) (amount : ℚ) : StakeDecision :=
  if st.loading then StakeDecision.pleaseWait
  else if ¬ st.connected then StakeDecision.notConnected
  else
    match st.stakeAccount with
    | none => StakeDecision.noStakeAccount
    | some a =>
        if amount ≤ 0 then StakeDecision.invalidAmount
        else if a.stakedAmount < Int.floor (amount * 1000000000) then
          StakeDecision.exceedsStaked
        else StakeDecision.proceed

/-- Embeds the synchronous gate of claimPoints in
src/src/hooks/useStaking.ts, lines 318-335: wallet check, then the gate
`!stakeAccount || stakeAccount.totalPoints.eq(new BN(0))` which rejects
with the No-points-to-claim toast.  Only the stored (checkpointed)
totalPoints field is consulted; no accrual since lastUpdatedTime enters
the decision. -/
def claimGateTs (st : SessionState) : StakeDecision :=
  if ¬ st.connected then StakeDecision.notConnected
  else
    match st.stakeAccount with
    | none => StakeDecision.noPoints
    | some a =>
        if a.totalPoints = 0 then StakeDecision.noPoints
        else StakeDecision.proceed

/-- Embeds the synchronous gate of claimPoints in part_002, lines
391-424: loading check, wallet check, then the same stored-totalPoints
gate (`Number(stakeAccount.totalPoints) === 0`). -/
def claimGate2 (st : SessionState) : StakeDecision :=
  if st.loading then StakeDecision.pleaseWait
  else if ¬ st.connected then StakeDecision.notConnected
  else
    match st.stakeAccount with
    | none => StakeDecision.noPoints
    | some a =>
        if a.totalPoints = 0 then StakeDecision.noPoints
        else StakeDecision.proceed

/-- A decoded position with 5 SOL (5000000000 lamports) staked, used as a
concrete session fixture. -/
def staked5Account : StakeAccount :=
  { owner := List.replicate 32 0, stakedAmount := 5000000000, totalPoints := 0,
    lastUpdatedTime := 0, bump := 0 }

/-- A connected session with an operation in flight (loading = true) and
no decoded position, used as a concrete fixture. -/
def busySession : SessionState :=
  { loading := true, connected := true, balance := 5, stakeAccount := none }

/-- A connected, idle session holding the 5-SOL position, used as a
concrete fixture. -/
def idleSession5 : SessionState :=
  { loading := false, connected := true, balance := 10,
    stakeAccount := some staked5Account }

/-- A connected, idle session whose decoded position has totalPoints = 5,
used as a concrete fixture for the claim gate. -/
def sessionWithPoints : SessionState :=
  { loading := false, connected := true, balance := 0,
    stakeAccount := some { owner := [], stakedAmount := 0, totalPoints := 5,
                           lastUpdatedTime := 0, bump := 0 } }

/-- C1: at calculatedPoints = 60000 the claimPoints flow of part_001 does
NOT abort before step 1: it fetches a blockhash, submits and confirms the
on-chain claim instruction (zeroing the ledger points), and only then
finds floor(60000/100000) = 0 and reports the zero-payout error without
transferring.  This evaluates the code at the failing input of the
claim, which requires the below-threshold abort to occur before step 1. -/
theorem c1_claim_submitted_despite_zero_payout :
    claimPointsRun true 60000 =
      ([ClaimEvent.fetchBlockhash, ClaimEvent.submitClaim, ClaimEvent.confirmClaim],
        ClaimOutcome.payoutZero) ∧
    ClaimEvent.submitClaim ∈ (claimPointsRun true 60000).1 := by
  decide

/-- C2: the accrual product is not carried out in a wide integer: it is an
IEEE-754 binary64 multiplication, and at stakedAmount = 2^53 - 1 (a value
the decoder can produce) with elapsed = 3 seconds the double product is
27021597764222972, one less than the exact product 27021597764222973 -
the computation loses precision before the division by the divisor. -/
theorem c2_js_double_product_inexact :
    jsProduct 9007199254740991 3 ≠ 9007199254740991 * 3 ∧
    jsProduct 9007199254740991 3 = 27021597764222972 ∧
    9007199254740991 * 3 = 27021597764222973 := by
  decide

/-- C3 counterexample: calculatePoints violates the claimed guard.  With
stakedAmount = 1, lastUpdatedTime = 2, totalPoints = 5 and now = 1 we
have now ≤ lastUpdatedTime, yet the function returns 4 (= 5 +
floor(-1/1000000000)), not totalPoints = 5: the result drops below
totalPoints on a backdated clock. -/
theorem c3_backdated_clock_reduces_points :
    (1 : Int) ≤ 2 ∧ calculatePoints 1 2 5 1 = 4 ∧ calculatePoints 1 2 5 1 ≠ 5 := by
  decide

/-- C3 amended: the snapshot accrual of fetchStakeAccount returns
totalPoints unchanged whenever stakedAmount = 0 or now ≤ lastUpdatedTime;
the helper calculatePoints returns totalPoints unchanged only when
stakedAmount = 0, lastUpdatedTime = 0, or now = lastUpdatedTime (its
guard does not cover now < lastUpdatedTime). -/
theorem c3_accrual_guard_amended (stakedAmount lastUpdatedTime totalPoints now : Int) :
    (stakedAmount = 0 ∨ now ≤ lastUpdatedTime →
      accrueSnapshot stakedAmount lastUpdatedTime totalPoints now = totalPoints) ∧
    (stakedAmount = 0 ∨ lastUpdatedTime = 0 →
      calculatePoints stakedAmount lastUpdatedTime totalPoints now = totalPoints) ∧
    (now = lastUpdatedTime →
      calculatePoints stakedAmount lastUpdatedTime totalPoints now = totalPoints) := by
  refine ⟨?_, ?_, ?_⟩
  · intro h
    have hc : ¬ (0 < stakedAmount ∧ 0 < now - lastUpdatedTime) := by
      rcases h with h | h <;> omega
    simp only [accrueSnapshot]
    rw [if_neg hc, add_zero]
  · intro h
    simp [calculatePoints, h]
  · intro h
    by_cases hz : stakedAmount = 0 ∨ lastUpdatedTime = 0
    · simp [calculatePoints, hz]
    · subst h
      simp [calculatePoints, hz, Int.zero_fdiv]

/-- C3 amended witness: concrete instances of all three guard clauses. -/
theorem c3_accrual_guard_amended_witness :
    accrueSnapshot 0 5 7 9 = 7 ∧ calculatePoints 0 5 7 9 = 7 ∧
    calculatePoints 3 5 7 5 = 7 :=
  ⟨(c3_accrual_guard_amended 0 5 7 9).1 (Or.inl rfl),
   (c3_accrual_guard_amended 0 5 7 9).2.1 (Or.inl rfl),
   (c3_accrual_guard_amended 3 5 7 5).2.2 rfl⟩

/-- Helper: the least ulp exponent of a natural number already holding in
53 bits is 0: the very first candidate of the search satisfies the
bound. -/
theorem ulpExp_eq_zero (n : Nat) (h : n < 2 ^ 53) : ulpExp n = 0 := by
  have h0 : decide (n < 2 ^ (53 + 0)) = true := by simpa using h
  unfold ulpExp
  rw [show (100 : Nat) = 99 + 1 from rfl, List.range_succ_eq_map]
  simp only [List.find?, h0]
  rfl

/-- Helper: binary64 rounding is the identity on naturals below 2^53 (they
fit in the significand). -/
theorem fl53_eq_of_lt (n : Nat) (h : n < 2 ^ 53) : fl53 n = n := by
  unfold fl53
  rw [ulpExp_eq_zero n h]
  simp

/-- C4 counterexample: the claimed equality with the exact floor fails on
the real code at a decodable input.  With stakedAmount = 6666667333333333
(below 2^53, so BN.toNumber decodes it) and elapsed = 3, the binary64
product rounds 20000001999999999 up to 20000002000000000, which is an
exact multiple of 10^9: the subsequent binary64 division by
LAMPORTS_PER_SOL is exact and Math.floor returns 20000002, while the
exact-floor value the claim asserts (and accrueSnapshot computes) is
20000001. -/
theorem c4_binary64_breaks_exact_floor :
    jsProduct 6666667333333333 3 = 20000002 * 1000000000 ∧
    Int.fdiv ((6666667333333333 : Int) * 3) LAMPORTS_PER_SOL = 20000001 ∧
    accrueSnapshot 6666667333333333 0 0 3 = 20000001 ∧
    (6666667333333333 : Nat) < 2 ^ 53 ∧
    (20000002 : Int) ≠ 20000001 := by
  decide

/-- C4 amended: with stakedAmount > 0, now > lastUpdatedTime, and the
product stakedAmount * (now - lastUpdatedTime) below 2^53, the snapshot
accrual returns totalPoints + floor(stakedAmount * (now - lastUpdatedTime)
/ LAMPORTS_PER_SOL); the binary64 product is exact in that range (second
clause; the rounded division then floors to the exact quotient, the
quotient being at least 1e-9 away from any integer while the half-ulp is
at most 2^-30).  In the concrete scenario of 10 SOL staked for one day
from totalPoints = 0 (product 864000000000000 < 2^53) the result is
exactly 864000. -/
theorem c4_accrual_formula_amended (stakedAmount lastUpdatedTime totalPoints now : Int)
    (h1 : 0 < stakedAmount) (h2 : lastUpdatedTime < now)
    (h3 : stakedAmount * (now - lastUpdatedTime) < 2 ^ 53) :
    accrueSnapshot stakedAmount lastUpdatedTime totalPoints now =
      totalPoints + Int.fdiv (stakedAmount * (now - lastUpdatedTime)) LAMPORTS_PER_SOL ∧
    jsProduct stakedAmount.toNat (now - lastUpdatedTime).toNat =
      stakedAmount.toNat * (now - lastUpdatedTime).toNat ∧
    accrueSnapshot (10 * 1000000000) lastUpdatedTime 0 (lastUpdatedTime + 86400) = 864000 := by
  have key : ∀ s t tp n : Int, 0 < s → t < n →
      accrueSnapshot s t tp n = tp + Int.fdiv (s * (n - t)) LAMPORTS_PER_SOL := by
    intro s t tp n hs hn
    have hc : 0 < s ∧ 0 < n - t := ⟨hs, by omega⟩
    simp [accrueSnapshot, hc]
  refine ⟨key _ _ _ _ h1 h2, ?_, ?_⟩
  · have hs : (stakedAmount.toNat : Int) = stakedAmount :=
      Int.toNat_of_nonneg (le_of_lt h1)
    have hel : ((now - lastUpdatedTime).toNat : Int) = now - lastUpdatedTime :=
      Int.toNat_of_nonneg (by omega)
    have hlt : stakedAmount.toNat * (now - lastUpdatedTime).toNat < 2 ^ 53 := by
      have hcast :
          ((stakedAmount.toNat * (now - lastUpdatedTime).toNat : Nat) : Int) < 2 ^ 53 := by
        push_cast
        rw [hs, hel]
        exact h3
      exact_mod_cast hcast
    exact fl53_eq_of_lt _ hlt
  · rw [key (10 * 1000000000) lastUpdatedTime 0 (lastUpdatedTime + 86400) (by norm_num)
          (by omega)]
    have he : lastUpdatedTime + 86400 - lastUpdatedTime = (86400 : Int) := by ring
    rw [he]
    decide

/-- C4 amended witness: the formula, the product exactness, and the
one-day 10-SOL scenario yielding 864000 points, at concrete inputs. -/
theorem c4_accrual_formula_amended_witness :
    accrueSnapshot 20 5 7 6 = 7 + Int.fdiv (20 * (6 - 5)) LAMPORTS_PER_SOL ∧
    jsProduct (20 : Int).toNat ((6 : Int) - 5).toNat =
      (20 : Int).toNat * ((6 : Int) - 5).toNat ∧
    accrueSnapshot (10 * 1000000000) 5 0 (5 + 86400) = 864000 :=
  c4_accrual_formula_amended 20 5 7 6 (by norm_num) (by norm_num) (by norm_num)

/-- C5 counterexample: two 65-byte inputs that differ in their first 8
bytes (all zeros versus all 255) both decode successfully, so whatever
the known discriminator constant is, at least one input with a wrong
discriminator is accepted instead of failing with a schema mismatch. -/
theorem c5_wrong_discriminator_accepted :
    (decodeStakeAccount (List.replicate 8 0 ++ List.replicate 57 0)).isSome = true ∧
    (decodeStakeAccount (List.replicate 8 255 ++ List.replicate 57 0)).isSome = true ∧
    (List.replicate 8 0 ++ List.replicate 57 0).take 8 ≠
      (List.replicate 8 255 ++ List.replicate 57 0).take 8 := by
  decide

/-- C5 amended: the decoder never inspects bytes 0..8 - it skips them, so
its result is identical on any two inputs that agree from byte 8 onward;
a discriminator mismatch is never detected, and only inputs shorter than
65 bytes are rejected (as account-not-initialized). -/
theorem c5_discriminator_ignored (pre pre2 rest : List Nat)
    (h1 : pre.length = 8) (h2 : pre2.length = 8) :
    decodeStakeAccount (pre ++ rest) = decodeStakeAccount (pre2 ++ rest) := by
  have d1 : (pre ++ rest).drop 8 = rest := by
    rw [← h1]; exact List.drop_left pre rest
  have d2 : (pre2 ++ rest).drop 8 = rest := by
    rw [← h2]; exact List.drop_left pre2 rest
  have l1 : (pre ++ rest).length = 8 + rest.length := by
    rw [List.length_append, h1]
  have l2 : (pre2 ++ rest).length = 8 + rest.length := by
    rw [List.length_append, h2]
  simp only [decodeStakeAccount, d1, d2, l1, l2]

/-- C5 amended witness: two concrete prefixes, same suffix, same decode
result. -/
theorem c5_discriminator_ignored_witness :
    decodeStakeAccount (List.replicate 8 7 ++ List.replicate 57 0) =
      decodeStakeAccount (List.replicate 8 9 ++ List.replicate 57 0) :=
  c5_discriminator_ignored (List.replicate 8 7) (List.replicate 8 9)
    (List.replicate 57 0) (by decide) (by decide)

/-- C6: any fetched byte sequence shorter than 65 bytes yields the
not-initialized outcome: no decoded position and calculatedPoints = 0.
The embedded read is a total function, so no input can make it throw
out of the read operation. -/
theorem c6_short_input_not_initialized (data : List Nat) (now : Int)
    (h : data.length < 65) :
    fetchResult (some data) now = (none, 0) := by
  have hnot : ¬ 65 ≤ data.length := by omega
  have hd : decodeStakeAccount data = none := by
    simp [decodeStakeAccount, hnot]
  by_cases hz : data.length = 0 <;> simp [fetchResult, hz, hd]

/-- C6 witness: a concrete 64-byte garbage input decodes to
not-initialized with zero points. -/
theorem c6_short_input_not_initialized_witness :
    fetchResult (some (List.replicate 64 3)) 1000 = (none, 0) :=
  c6_short_input_not_initialized (List.replicate 64 3) 1000 (by decide)

/-- C7 counterexample: in the src/src/hooks/useStaking.ts variant the
stake gate never reads the loading flag: with an operation in flight
(loading = true) a second stake request with a valid amount is allowed
to proceed into the network path instead of being rejected with a
please-wait signal. -/
theorem c7_second_stake_not_rejected :
    stakeGateTs busySession 1 = StakeDecision.proceed := by
  norm_num [stakeGateTs, busySession]

/-- C7 amended: in the part_002 variant every user-initiated operation
(stake, unstake, claimPoints) issued while loading is true is rejected
immediately with the please-wait decision, before any state change or
network call. -/
theorem c7_single_inflight_part2 (st : SessionState) (amount : ℚ)
    (h : st.loading = true) :
    stakeGate2 st amount = StakeDecision.pleaseWait ∧
    unstakeGate2 st amount = StakeDecision.pleaseWait ∧
    claimGate2 st = StakeDecision.pleaseWait := by
  refine ⟨?_, ?_, ?_⟩ <;> simp [stakeGate2, unstakeGate2, claimGate2, h]

/-- C7 amended witness: a concrete busy session rejects a second stake,
unstake and claim with please-wait. -/
theorem c7_single_inflight_part2_witness :
    stakeGate2 busySession 2 = StakeDecision.pleaseWait ∧
    unstakeGate2 busySession 2 = StakeDecision.pleaseWait ∧
    claimGate2 busySession = StakeDecision.pleaseWait :=
  c7_single_inflight_part2 busySession 2 rfl

/-- C8 counterexample: in the src/src/hooks/useStaking.ts variant an
unstake request of 6 SOL against a position with only 5 SOL staked
passes every local check and proceeds to build and submit a transaction;
the excess is rejected only remotely (error code 6001). -/
theorem c8_excess_unstake_not_rejected_locally :
    unstakeGateTs idleSession5 6 = StakeDecision.proceed := by
  norm_num [unstakeGateTs, idleSession5]

/-- C8 amended: in the part_002 variant an unstake request whose lamport
amount floor(amount * 1e9) exceeds the staked amount is rejected locally
with the exceeds-staked decision, before setLoading and before any
network call. -/
theorem c8_unstake_guard_part2 (st : SessionState) (amount : ℚ) (a : StakeAccount)
    (hl : st.loading = false) (hc : st.connected = true)
    (ha : st.stakeAccount = some a) (hpos : 0 < amount)
    (hex : a.stakedAmount < Int.floor (amount * 1000000000)) :
    unstakeGate2 st amount = StakeDecision.exceedsStaked := by
  simp [unstakeGate2, hl, hc, ha, hex, not_le.mpr hpos]

/-- C8 amended witness: unstaking 6 SOL against 5 SOL staked is rejected
locally in the part_002 variant. -/
theorem c8_unstake_guard_part2_witness :
    unstakeGate2 idleSession5 6 = StakeDecision.exceedsStaked := by
  apply c8_unstake_guard_part2 _ 6 staked5Account rfl rfl rfl (by norm_num)
  have h6 : (6 : ℚ) * 1000000000 = ((6000000000 : Int) : ℚ) := by norm_num
  rw [h6, Int.floor_intCast]
  decide

/-- C9: the 50000-point gate of part_001 claimPoints rejects every
calculatedPoints below 50000 with no external effect at all (no
instruction built, no network call), in particular at 49999; at exactly
50000 the gate passes and the operation proceeds to submit the on-chain
claim. -/
theorem c9_claim_threshold :
    (∀ p : Int, p < 50000 → claimPointsRun true p = ([], ClaimOutcome.belowMinimum)) ∧
    claimPointsRun true 49999 = ([], ClaimOutcome.belowMinimum) ∧
    claimPointsRun true 50000 =
      ([ClaimEvent.fetchBlockhash, ClaimEvent.submitClaim, ClaimEvent.confirmClaim],
        ClaimOutcome.payoutZero) := by
  refine ⟨?_, by decide, by decide⟩
  intro p hp
  simp [claimPointsRun, hp]

/-- C9 witness: a concrete below-threshold claim produces no effects. -/
theorem c9_claim_threshold_witness :
    claimPointsRun true 100 = ([], ClaimOutcome.belowMinimum) :=
  c9_claim_threshold.1 100 (by decide)

/-- C10: in both useStaking variants the claim gate proceeds exactly when
a decoded stake account exists with stored totalPoints nonzero; whenever
the stored totalPoints is zero the request is rejected with the
no-points decision, regardless of any accrual since lastUpdatedTime
(the gates never consult the clock or the accrual calculator). -/
theorem c10_claim_gate_checkpointed_points (st : SessionState)
    (hc : st.connected = true) (hl : st.loading = false) :
    (claimGateTs st = StakeDecision.proceed ↔
      ∃ a, st.stakeAccount = some a ∧ a.totalPoints ≠ 0) ∧
    (claimGate2 st = StakeDecision.proceed ↔
      ∃ a, st.stakeAccount = some a ∧ a.totalPoints ≠ 0) ∧
    (∀ a, st.stakeAccount = some a → a.totalPoints = 0 →
      claimGateTs st = StakeDecision.noPoints ∧
      claimGate2 st = StakeDecision.noPoints) := by
  cases hsa : st.stakeAccount with
  | none =>
      refine ⟨?_, ?_, ?_⟩ <;> simp [claimGateTs, claimGate2, hc, hl, hsa]
  | some a =>
      by_cases hp : a.totalPoints = 0
      · refine ⟨?_, ?_, ?_⟩ <;> simp [claimGateTs, claimGate2, hc, hl, hsa, hp]
      · refine ⟨?_, ?_, ?_⟩ <;> simp [claimGateTs, claimGate2, hc, hl, hsa, hp]

/-- C10 witness: a session holding a position with totalPoints = 5
passes the claim gate. -/
theorem c10_claim_gate_checkpointed_points_witness :
    claimGateTs sessionWithPoints = StakeDecision.proceed :=
  (c10_claim_gate_checkpointed_points sessionWithPoints rfl rfl).1.mpr
    ⟨{ owner := [], stakedAmount := 0, totalPoints := 5, lastUpdatedTime := 0,
       bump := 0 }, rfl, by decide⟩
